import Mathlib

/-!
Shallow embedding of the stock-valuation core (valuation_calculator.py,
recommender.py, data_fetcher.py) over exact rational arithmetic, together
with theorems settling the specification claims about it.

Python floats are modelled as `ℚ`, `None`-able values as `Option`,
dictionaries as structures.  Every definition follows the corresponding
source function line by line; reference definitions written from the
specification's own wording are suffixed `_claim...` and are only used to
compare against the source embedding.
-/

namespace StockVal

/-! ### Sector profiles (valuation_calculator.py, SECTOR_PROFILES) -/

/-- `SECTOR_PROFILES`: sector name, member tickers and `base_growth`,
in the source dictionary's insertion order (the `min_roe` and
`description` entries are never read by the analysis pipeline and are
omitted). -/
def SECTOR_PROFILES : List (String × List String × ℚ) :=
  [ ("TELECOM", (["T", "VZ", "VOX"], 2/100)),
    ("UTILITIES", (["NEE", "DUK", "SO"], 25/1000)),
    ("TECH_LARGE", (["AAPL", "MSFT", "GOOGL", "NVDA"], 8/100)),
    ("NETWORK", (["V", "MA"], 12/100)),
    ("FINTECH", (["PYPL"], 10/100)),
    ("CONSUMER", (["PG", "KO", "PEP", "WMT", "MCD"], 3/100)),
    ("HEALTHCARE", (["JNJ", "UNH", "ABT"], 5/100)),
    ("RETAIL", (["HD", "MCD", "SBUX"], 3/100)),
    ("INDUSTRIALS", (["BA", "IBM"], 3/100)),
    ("MEDIA", (["DIS", "NFLX"], 4/100)),
    ("SOCIAL_MEDIA", (["META"], 12/100)) ]

/-- Python's `str.upper()`, character by character (the tickers involved
are ASCII). -/
def pyUpper (s : String) : String := ⟨s.data.map Char.toUpper⟩

/-- `get_sector_growth_rate(ticker)`: first profile whose ticker list
contains the upper-cased ticker; `(0.04, "UNKNOWN")` otherwise. -/
def get_sector_growth_rate (ticker : String) : ℚ × String :=
  let tu := pyUpper ticker
  match SECTOR_PROFILES.find? (fun p => p.2.1.contains tu) with
  | some p => (p.2.2, p.1)
  | none => (4/100, "UNKNOWN")

/-! ### Elementary metric computations (valuation_calculator.py) -/

/-- `calculate_free_cash_flow`: `max(ocf - capex, 0)`. -/
def calculate_free_cash_flow (operating_cash_flow capital_expenditures : ℚ) : ℚ :=
  max (operating_cash_flow - capital_expenditures) 0

/-- `calculate_fcf_per_share`: `fcf / shares`, `0.0` when `shares <= 0`. -/
def calculate_fcf_per_share (free_cash_flow shares_outstanding : ℚ) : ℚ :=
  if shares_outstanding ≤ 0 then 0 else free_cash_flow / shares_outstanding

/-- `calculate_roe`: `net_income / equity`, `0` when `equity <= 0`. -/
def calculate_roe (net_income shareholders_equity : ℚ) : ℚ :=
  if shareholders_equity ≤ 0 then 0 else net_income / shareholders_equity

/-- `calculate_roic`: `nopat / invested_capital`, `0` when the capital is
non-positive. -/
def calculate_roic (nopat invested_capital : ℚ) : ℚ :=
  if invested_capital ≤ 0 then 0 else nopat / invested_capital

/-- `estimate_nopat`: `operating_income * (1 - tax_rate)`, `0` when the
operating income is non-positive. -/
def estimate_nopat (operating_income tax_rate : ℚ) : ℚ :=
  if operating_income ≤ 0 then 0 else operating_income * (1 - tax_rate)

/-- `calculate_wacc`: `(risk_free_rate + beta * market_risk_premium) /
(1 + debt_to_equity)`. -/
def calculate_wacc (risk_free_rate market_risk_premium beta debt_to_equity : ℚ) : ℚ :=
  (risk_free_rate + beta * market_risk_premium) / (1 + debt_to_equity)

/-! ### DCF intrinsic value (valuation_calculator.py, calculate_intrinsic_value) -/

/-- State of the explicit-projection loop of `calculate_intrinsic_value`
after `n` iterations: `(pv_fcf, current_fcf)`.  Iteration `n + 1` is the
source's loop body for `year = n + 1`. -/
def dcf_loop (growth_rate wacc fcf_per_share : ℚ) : ℕ → ℚ × ℚ
  | 0 => (0, fcf_per_share)
  | n + 1 =>
    let p := dcf_loop growth_rate wacc fcf_per_share n
    let current_fcf := p.2 * (1 + growth_rate)
    (p.1 + current_fcf / (1 + wacc) ^ (n + 1), current_fcf)

/-- `calculate_intrinsic_value`: optional ticker, growth-rate override and
WACC override; defaults `terminal_growth_rate = 0.025`,
`projection_years = 10` are passed explicitly by callers here. -/
def calculate_intrinsic_value (fcf_per_share : ℚ) (ticker : Option String)
    (growth_rate? : Option ℚ) (wacc? : Option ℚ)
    (terminal_growth_rate : ℚ) (projection_years : ℕ) : ℚ × ℚ :=
  if fcf_per_share ≤ 0 then (0, 0) else
  let g0 : ℚ :=
    match growth_rate? with
    | some g => g
    | none =>
      match ticker with
      | some t => (get_sector_growth_rate t).1
      | none => 3/100
  let growth_rate := min (max g0 0) (8/100)
  let tgr := min terminal_growth_rate (25/1000)
  let wacc : ℚ :=
    match wacc? with
    | some w => w
    | none => calculate_wacc (45/1000) (55/1000) 1 (1/2)
  if wacc ≤ growth_rate then
    (fcf_per_share * (1 + growth_rate) / (wacc + 1/100), 0)
  else
    let res := dcf_loop growth_rate wacc fcf_per_share projection_years
    let terminal_fcf := res.2 * (1 + tgr)
    let terminal_value := terminal_fcf / (wacc - tgr)
    let pv_terminal := terminal_value / (1 + wacc) ^ projection_years
    let intrinsic_value := res.1 + pv_terminal
    (intrinsic_value, intrinsic_value)

/-- Reference definition of the intrinsic value from the specification's
wording (claim C1): the explicit period is the closed sum over
`year = 1..projection_years` of `fcf*(1+g)^year / (1+wacc)^year`, and the
Gordon terminal value is taken on `fcf*(1+g)^projection_years`. -/
def intrinsic_value_claimC1 (fcf_per_share : ℚ) (ticker : Option String)
    (growth_rate? : Option ℚ) (wacc? : Option ℚ)
    (terminal_growth_rate : ℚ) (projection_years : ℕ) : ℚ × ℚ :=
  if fcf_per_share ≤ 0 then (0, 0) else
  let g0 : ℚ :=
    match growth_rate? with
    | some g => g
    | none =>
      match ticker with
      | some t => (get_sector_growth_rate t).1
      | none => 3/100
  let growth_rate := min (max g0 0) (8/100)
  let tgr := min terminal_growth_rate (25/1000)
  let wacc : ℚ :=
    match wacc? with
    | some w => w
    | none => calculate_wacc (45/1000) (55/1000) 1 (1/2)
  if wacc ≤ growth_rate then
    (fcf_per_share * (1 + growth_rate) / (wacc + 1/100), 0)
  else
    let pv_fcf : ℚ := ∑ year ∈ Finset.Icc 1 projection_years,
      fcf_per_share * (1 + growth_rate) ^ year / (1 + wacc) ^ year
    let terminal_value :=
      fcf_per_share * (1 + growth_rate) ^ projection_years * (1 + tgr) / (wacc - tgr)
    let intrinsic_value := pv_fcf + terminal_value / (1 + wacc) ^ projection_years
    (intrinsic_value, intrinsic_value)

lemma dcf_loop_snd (g w f : ℚ) (n : ℕ) :
    (dcf_loop g w f n).2 = f * (1 + g) ^ n := by
  induction n with
  | zero => simp [dcf_loop]
  | succ n ih => simp [dcf_loop, ih]; ring

lemma dcf_loop_fst (g w f : ℚ) (n : ℕ) :
    (dcf_loop g w f n).1 =
      ∑ year ∈ Finset.Icc 1 n, f * (1 + g) ^ year / (1 + w) ^ year := by
  induction n with
  | zero => simp [dcf_loop]
  | succ n ih =>
    rw [Finset.sum_Icc_succ_top (by omega : 1 ≤ n + 1)]
    simp only [dcf_loop, ← ih, dcf_loop_snd]
    ring

/-- C1: `calculate_intrinsic_value` agrees with the specification's
reference definition on every input — the degenerate cases, the clamping
of the growth rates, the explicit-period discounted sum and the Gordon
terminal value all coincide, and in the standard case both return slots
carry the same value. -/
theorem C1_intrinsic_value_refines_spec (fcf_per_share : ℚ) (ticker : Option String)
    (growth_rate? : Option ℚ) (wacc? : Option ℚ)
    (terminal_growth_rate : ℚ) (projection_years : ℕ) :
    calculate_intrinsic_value fcf_per_share ticker growth_rate? wacc?
        terminal_growth_rate projection_years =
      intrinsic_value_claimC1 fcf_per_share ticker growth_rate? wacc?
        terminal_growth_rate projection_years := by
  unfold calculate_intrinsic_value intrinsic_value_claimC1
  split
  · rfl
  · simp only [dcf_loop_fst, dcf_loop_snd]

/-! ### Value-trap detection (valuation_calculator.py, detect_value_trap) -/

/-- Result dictionary of `detect_value_trap`.  The early return for a
non-positive price carries no `fcf_yield` key, hence the `Option`. -/
structure ValueTrapFlag where
  is_trap : Bool
  trap_score : ℚ
  fcf_yield : Option ℚ
  reasons : List String
deriving DecidableEq

/-- `detect_value_trap(roe, fcf_per_share, current_price, growth_rate)`:
early return when the price is non-positive, otherwise the three signals
accumulate `trap_score` and `reasons` in order (the numeric interpolation
inside the reason strings is dropped). -/
def detect_value_trap (roe fcf_per_share current_price growth_rate : ℚ) : ValueTrapFlag :=
  if current_price ≤ 0 then
    { is_trap := false, trap_score := 0, fcf_yield := none, reasons := [] }
  else
    let fcf_yield : ℚ := if 0 < fcf_per_share then fcf_per_share / current_price else 0
    let acc1 : ℚ × List String :=
      if 15/100 < fcf_yield then
        (2/5, ["Very high FCF yield - may not be sustainable"])
      else (0, [])
    let acc2 : ℚ × List String :=
      if roe < 10/100 then
        (acc1.1 + 3/10, acc1.2 ++ ["Low ROE - weak capital efficiency"])
      else acc1
    let acc3 : ℚ × List String :=
      if growth_rate ≤ 3/100 ∧ 10/100 < fcf_yield then
        (acc2.1 + 3/10, acc2.2 ++ ["Low growth + high yield profile suggests secular decline"])
      else acc2
    { is_trap := decide (1/2 ≤ acc3.1), trap_score := acc3.1,
      fcf_yield := some fcf_yield, reasons := acc3.2 }

/-- Reference trap score from claim C2's wording: the FCF yield is
`fcf_per_share / current_price` whenever both are positive and `0`
otherwise, and the three signals contribute additively and
independently — in particular the low-ROE signal also fires when
`current_price ≤ 0`. -/
def trap_score_claimC2 (roe fcf_per_share current_price growth_rate : ℚ) : ℚ :=
  let fcf_yield : ℚ :=
    if 0 < current_price ∧ 0 < fcf_per_share then fcf_per_share / current_price else 0
  (if 15/100 < fcf_yield then 2/5 else 0) +
    (if roe < 10/100 then 3/10 else 0) +
    (if growth_rate ≤ 3/100 ∧ 10/100 < fcf_yield then 3/10 else 0)

/-- C2 counterexample: at `roe = 0.05`, `fcf_per_share = 1`,
`current_price = 0`, `growth_rate = 0.05` the code's early return yields
`trap_score = 0` (and no trap), while the claim's additive formulation
demands the low-ROE signal contribute `0.3` — the claimed score is not
the code's score. -/
theorem C2_counterexample :
    (detect_value_trap (5/100) 1 0 (5/100)).trap_score = 0 ∧
      (detect_value_trap (5/100) 1 0 (5/100)).is_trap = false ∧
      trap_score_claimC2 (5/100) 1 0 (5/100) = 3/10 ∧
      (detect_value_trap (5/100) 1 0 (5/100)).trap_score ≠
        trap_score_claimC2 (5/100) 1 0 (5/100) := by
  refine ⟨rfl, rfl, by norm_num [trap_score_claimC2], ?_⟩
  norm_num [detect_value_trap, trap_score_claimC2]

/-- C2 amended: `detect_value_trap` returns trap score `0` (and no trap)
whenever `current_price ≤ 0`; for a positive price its trap score is
exactly the additive sum of the three independent signals of the claim,
its FCF yield is `fcf_per_share / current_price` when
`fcf_per_share > 0` and `0` otherwise, and `is_trap` holds exactly when
the trap score reaches `0.5`. -/
theorem C2_trap_score_amended (roe fcf_per_share current_price growth_rate : ℚ) :
    (detect_value_trap roe fcf_per_share current_price growth_rate).trap_score =
        (if current_price ≤ 0 then 0
          else trap_score_claimC2 roe fcf_per_share current_price growth_rate) ∧
      (detect_value_trap roe fcf_per_share current_price growth_rate).is_trap =
        decide ((1 : ℚ)/2 ≤
          (detect_value_trap roe fcf_per_share current_price growth_rate).trap_score) ∧
      (detect_value_trap roe fcf_per_share current_price growth_rate).fcf_yield =
        (if current_price ≤ 0 then none
          else some (if 0 < fcf_per_share then fcf_per_share / current_price else 0)) := by
  by_cases hp : current_price ≤ 0
  · simp [detect_value_trap, trap_score_claimC2, hp]
  · have hp' : 0 < current_price := lt_of_not_le hp
    simp only [detect_value_trap, trap_score_claimC2, if_neg hp, hp', true_and]
    constructor
    · split_ifs <;> norm_num
    · trivial

/-! ### Quality rating (valuation_calculator.py, calculate_quality_rating) -/

/-- Result dictionary of `calculate_quality_rating`. -/
structure QualityRating where
  quality : String
  return_metric : ℚ
  margin_of_safety : ℚ
deriving DecidableEq

/-- `primary_return = roic if roic is not None and roic > 0 else roe`
(the selection line shared by `calculate_quality_rating` and the claim's
reference tiers). -/
def primary_return_of (roe : ℚ) (roic : Option ℚ) : ℚ :=
  match roic with
  | some r => if 0 < r then r else roe
  | none => roe

/-- `calculate_quality_rating(roe, roic, fcf_per_share, current_price)`:
tiered on the primary return (the last two parameters are accepted but
never read, as in the source). -/
def calculate_quality_rating (roe : ℚ) (roic : Option ℚ)
    (fcf_per_share current_price : Option ℚ) : QualityRating :=
  let primary_return : ℚ := primary_return_of roe roic
  if 40/100 ≤ primary_return then ⟨"EXCEPTIONAL", primary_return, 15/100⟩
  else if 25/100 ≤ primary_return then ⟨"EXCELLENT", primary_return, 20/100⟩
  else if 20/100 ≤ primary_return then ⟨"EXCELLENT", primary_return, 20/100⟩
  else if 15/100 ≤ primary_return then ⟨"GOOD", primary_return, 20/100⟩
  else if 10/100 ≤ primary_return then ⟨"ADEQUATE", primary_return, 35/100⟩
  else if 8/100 ≤ primary_return then ⟨"POOR", primary_return, 50/100⟩
  else ⟨"WEAK", primary_return, 65/100⟩

/-- Reference tiers from claim C6's wording: the five thresholds with the
two `EXCELLENT` branches of the source collapsed into one. -/
def quality_tiers_claimC6 (roe : ℚ) (roic : Option ℚ) : String × ℚ :=
  let primary_return : ℚ := primary_return_of roe roic
  if 40/100 ≤ primary_return then ("EXCEPTIONAL", 15/100)
  else if 20/100 ≤ primary_return then ("EXCELLENT", 20/100)
  else if 15/100 ≤ primary_return then ("GOOD", 20/100)
  else if 10/100 ≤ primary_return then ("ADEQUATE", 35/100)
  else if 8/100 ≤ primary_return then ("POOR", 50/100)
  else ("WEAK", 65/100)

/-- C6: `calculate_quality_rating` uses ROIC when present and strictly
positive (else ROE) as the primary return, and its tier and
margin-of-safety pair is exactly the claim's five-threshold table. -/
theorem C6_quality_rating_tiers (roe : ℚ) (roic : Option ℚ)
    (fcf_per_share current_price : Option ℚ) :
    ((calculate_quality_rating roe roic fcf_per_share current_price).quality,
        (calculate_quality_rating roe roic fcf_per_share current_price).margin_of_safety) =
        quality_tiers_claimC6 roe roic ∧
      (calculate_quality_rating roe roic fcf_per_share current_price).return_metric =
        primary_return_of roe roic := by
  simp only [calculate_quality_rating, quality_tiers_claimC6]
  constructor
  · split_ifs <;> first | rfl | (exfalso; linarith)
  · split_ifs <;> rfl

/-! ### Valuation rating (valuation_calculator.py, rate_valuation) -/

/-- Result dictionary of `rate_valuation`.  The early return for a
non-positive intrinsic value carries only `rating`, `discount` and
`signal`; the trap branch additionally carries a `warning`. -/
structure Assessment where
  rating : String
  discount : ℚ
  signal : String
  upside_potential : Option ℚ
  quality : Option String
  warning : Option String
deriving DecidableEq

/-- `rate_valuation(current_price, intrinsic_value, quality_rating,
value_trap_analysis)`. -/
def rate_valuation (current_price intrinsic_value : ℚ)
    (quality_rating : QualityRating) (value_trap_analysis : ValueTrapFlag) : Assessment :=
  if intrinsic_value ≤ 0 then
    ⟨"UNABLE_TO_CALCULATE", 0, "SKIP", none, none, none⟩
  else
    let mos := quality_rating.margin_of_safety
    let value_with_mos := intrinsic_value * (1 - mos)
    let discount := (1 - current_price / intrinsic_value) * 100
    let upside : ℚ :=
      if 0 < current_price then (intrinsic_value / current_price - 1) * 100 else 0
    if value_trap_analysis.is_trap then
      ⟨"VALUE_TRAP", discount, "AVOID", some upside, some quality_rating.quality,
        some "High FCF yield with low ROE - unsustainable"⟩
    else if current_price < value_with_mos then
      ⟨"SIGNIFICANTLY_UNDERVALUED", discount, "STRONG_BUY", some upside,
        some quality_rating.quality, none⟩
    else if current_price < intrinsic_value then
      ⟨"UNDERVALUED", discount, "BUY", some upside, some quality_rating.quality, none⟩
    else if current_price < intrinsic_value * (115/100) then
      ⟨"FAIRLY_VALUED", discount, "HOLD", some upside, some quality_rating.quality, none⟩
    else
      ⟨"OVERVALUED", discount, "AVOID", some upside, some quality_rating.quality, none⟩

/-- C4: with no value trap, a positive intrinsic value yields the
discount `(1 - price/iv) * 100` and the four-tier signal/rating ladder of
the claim, and a non-positive intrinsic value yields the
`UNABLE_TO_CALCULATE / 0 / SKIP` early return. -/
theorem C4_rate_valuation_tiers (current_price intrinsic_value : ℚ)
    (quality_rating : QualityRating) (value_trap_analysis : ValueTrapFlag)
    (htrap : value_trap_analysis.is_trap = false) :
    (0 < intrinsic_value →
        (rate_valuation current_price intrinsic_value quality_rating
              value_trap_analysis).discount =
            (1 - current_price / intrinsic_value) * 100 ∧
          ((rate_valuation current_price intrinsic_value quality_rating
                value_trap_analysis).signal,
              (rate_valuation current_price intrinsic_value quality_rating
                value_trap_analysis).rating) =
            (if current_price <
                intrinsic_value * (1 - quality_rating.margin_of_safety) then
              ("STRONG_BUY", "SIGNIFICANTLY_UNDERVALUED")
            else if current_price < intrinsic_value then ("BUY", "UNDERVALUED")
            else if current_price < intrinsic_value * (115/100) then
              ("HOLD", "FAIRLY_VALUED")
            else ("AVOID", "OVERVALUED"))) ∧
      (intrinsic_value ≤ 0 →
        rate_valuation current_price intrinsic_value quality_rating
            value_trap_analysis =
          ⟨"UNABLE_TO_CALCULATE", 0, "SKIP", none, none, none⟩) := by
  constructor
  · intro hiv
    unfold rate_valuation
    rw [if_neg (not_le.mpr hiv), htrap]
    simp only [Bool.false_eq_true, if_false]
    split_ifs <;> simp
  · intro hiv
    unfold rate_valuation
    rw [if_pos hiv]

/-- C4 witness: the claim's own example — price 50 against intrinsic
value 100 with a GOOD quality rating (margin of safety 0.20) and no trap
gives a 50 % discount, signal STRONG_BUY and rating
SIGNIFICANTLY_UNDERVALUED. -/
theorem C4_rate_valuation_tiers_witness :
    (rate_valuation 50 100 ⟨"GOOD", 15/100, 20/100⟩ ⟨false, 0, none, []⟩).discount = 50 ∧
      (rate_valuation 50 100 ⟨"GOOD", 15/100, 20/100⟩ ⟨false, 0, none, []⟩).signal =
        "STRONG_BUY" ∧
      (rate_valuation 50 100 ⟨"GOOD", 15/100, 20/100⟩ ⟨false, 0, none, []⟩).rating =
        "SIGNIFICANTLY_UNDERVALUED" := by
  have h := (C4_rate_valuation_tiers 50 100 ⟨"GOOD", 15/100, 20/100⟩
    ⟨false, 0, none, []⟩ rfl).1 (by norm_num)
  obtain ⟨hd, hsr⟩ := h
  have hif : (if (50 : ℚ) < 100 * (1 - (⟨"GOOD", 15/100, 20/100⟩ : QualityRating).margin_of_safety)
      then (("STRONG_BUY" : String), ("SIGNIFICANTLY_UNDERVALUED" : String))
      else if (50 : ℚ) < 100 then ("BUY", "UNDERVALUED")
      else if (50 : ℚ) < 100 * (115/100) then ("HOLD", "FAIRLY_VALUED")
      else ("AVOID", "OVERVALUED")) = ("STRONG_BUY", "SIGNIFICANTLY_UNDERVALUED") := by
    norm_num
  rw [hif] at hsr
  refine ⟨by rw [hd]; norm_num, ?_, ?_⟩
  · exact congrArg Prod.fst hsr
  · exact congrArg Prod.snd hsr

/-- C5: whenever the intrinsic value is positive and the value-trap flag
is set, `rate_valuation` returns rating VALUE_TRAP and signal AVOID,
whatever the price (and hence whatever the discount's sign). -/
theorem C5_value_trap_override (current_price intrinsic_value : ℚ)
    (quality_rating : QualityRating) (value_trap_analysis : ValueTrapFlag)
    (hiv : 0 < intrinsic_value) (htrap : value_trap_analysis.is_trap = true) :
    (rate_valuation current_price intrinsic_value quality_rating
          value_trap_analysis).rating = "VALUE_TRAP" ∧
      (rate_valuation current_price intrinsic_value quality_rating
          value_trap_analysis).signal = "AVOID" ∧
      (rate_valuation current_price intrinsic_value quality_rating
          value_trap_analysis).discount =
        (1 - current_price / intrinsic_value) * 100 := by
  unfold rate_valuation
  rw [if_neg (not_le.mpr hiv), htrap]
  exact ⟨rfl, rfl, rfl⟩

/-- C5 witness: an overpriced trap (price 130, intrinsic value 100, so a
negative discount) is still rated VALUE_TRAP / AVOID. -/
theorem C5_value_trap_override_witness :
    (rate_valuation 130 100 ⟨"WEAK", 5/100, 65/100⟩ ⟨true, 7/10, some (1/5), []⟩).rating =
        "VALUE_TRAP" ∧
      (rate_valuation 130 100 ⟨"WEAK", 5/100, 65/100⟩
          ⟨true, 7/10, some (1/5), []⟩).signal = "AVOID" ∧
      (rate_valuation 130 100 ⟨"WEAK", 5/100, 65/100⟩
          ⟨true, 7/10, some (1/5), []⟩).discount = -30 := by
  have h := C5_value_trap_override 130 100 ⟨"WEAK", 5/100, 65/100⟩
    ⟨true, 7/10, some (1/5), []⟩ (by norm_num) rfl
  refine ⟨h.1, h.2.1, ?_⟩
  rw [h.2.2]; norm_num

/-! ### Recommendation scoring (recommender.py, StockRecommender._calculate_score) -/

/-- Business-quality block of the normal scoring path (30 points max),
bucketed on the primary return percentage. -/
def quality_bucket (primary_return : ℚ) : ℚ :=
  if 25 ≤ primary_return then 30
  else if 20 ≤ primary_return then 28
  else if 15 ≤ primary_return then 22
  else if 12 ≤ primary_return then 15
  else if 8 ≤ primary_return then 8
  else 2

/-- Valuation-discount block of the normal scoring path (30 points max). -/
def discount_bucket (discount : ℚ) : ℚ :=
  if 25 ≤ discount ∧ discount ≤ 60 then 30
  else if (15 < discount ∧ discount < 25) ∨ (60 < discount ∧ discount ≤ 80) then 20
  else if 0 < discount ∧ discount ≤ 15 then 10
  else if 80 < discount then 5
  else 0

/-- Signal-strength block (20 points max), shared verbatim by the normal
and the exceptional-quality paths. -/
def signal_bucket (signal : String) : ℚ :=
  if signal = "STRONG_BUY" then 20
  else if signal = "BUY" then 15
  else if signal = "HOLD" then 5
  else 0

/-- FCF-sustainability block of the normal scoring path (20 points max). -/
def fcf_bucket (fcf_yield : ℚ) : ℚ :=
  if 3 ≤ fcf_yield ∧ fcf_yield ≤ 8 then 20
  else if (2 < fcf_yield ∧ fcf_yield < 3) ∨ (8 < fcf_yield ∧ fcf_yield ≤ 12) then 12
  else if fcf_yield ≤ 2 then 5
  else if 12 < fcf_yield then 3
  else 0

/-- FCF-sustainability block of the exceptional-quality path (25 points
max, wider healthy band). -/
def exceptional_fcf_bucket (fcf_yield : ℚ) : ℚ :=
  if 3 ≤ fcf_yield ∧ fcf_yield ≤ 10 then 25
  else if (2 < fcf_yield ∧ fcf_yield < 3) ∨ (10 < fcf_yield ∧ fcf_yield ≤ 15) then 15
  else if fcf_yield ≤ 2 then 5
  else 0

/-- The fields of an analysis dictionary that `_calculate_score` reads. -/
structure ScoreInputs where
  trap_score : ℚ
  roe_percent : ℚ
  roic_percent : Option ℚ
  discount : ℚ
  signal : String
  fcf_yield : ℚ
deriving DecidableEq

/-- `_calculate_score(analysis, is_value_trap, exceptional_quality)`:
the value-trap path short-circuits with `max(0, 20 * (1 - trap_score))`;
the exceptional path scores `35 + signal + fcf` capped at 100; the normal
path sums the four buckets (ROIC preferred over ROE when non-`None` and
non-zero, Python truthiness) capped at 100. -/
def calculate_score (a : ScoreInputs) (is_value_trap exceptional_quality : Bool) : ℚ :=
  if is_value_trap then max 0 (20 * (1 - a.trap_score))
  else if exceptional_quality then
    min (35 + signal_bucket a.signal + exceptional_fcf_bucket a.fcf_yield) 100
  else
    let primary_return : ℚ :=
      match a.roic_percent with
      | some r => if r ≠ 0 then r else a.roe_percent
      | none => a.roe_percent
    min (quality_bucket primary_return + discount_bucket a.discount +
      signal_bucket a.signal + fcf_bucket a.fcf_yield) 100

lemma quality_bucket_nonneg (x : ℚ) : 0 ≤ quality_bucket x := by
  unfold quality_bucket; split_ifs <;> norm_num

lemma discount_bucket_nonneg (x : ℚ) : 0 ≤ discount_bucket x := by
  unfold discount_bucket; split_ifs <;> norm_num

lemma signal_bucket_nonneg (s : String) : 0 ≤ signal_bucket s := by
  unfold signal_bucket; split_ifs <;> norm_num

lemma fcf_bucket_nonneg (x : ℚ) : 0 ≤ fcf_bucket x := by
  unfold fcf_bucket; split_ifs <;> norm_num

lemma exceptional_fcf_bucket_nonneg (x : ℚ) : 0 ≤ exceptional_fcf_bucket x := by
  unfold exceptional_fcf_bucket; split_ifs <;> norm_num

/-- C7: on every analysis whose trap score is non-negative (the data
model keeps it in `[0, 1]`), `_calculate_score` lands in `[0, 100]`; on
the value-trap path it is exactly `max(0, 20 * (1 - trap_score))`, hence
at most 20, and it coincides on any two analyses sharing a trap score —
no other field is consulted there. -/
theorem C7_score_range_and_trap_path (a b : ScoreInputs)
    (is_value_trap exceptional_quality exceptional_quality' : Bool)
    (hts : 0 ≤ a.trap_score) (hsame : a.trap_score = b.trap_score) :
    (0 ≤ calculate_score a is_value_trap exceptional_quality ∧
        calculate_score a is_value_trap exceptional_quality ≤ 100) ∧
      calculate_score a true exceptional_quality = max 0 (20 * (1 - a.trap_score)) ∧
      calculate_score a true exceptional_quality ≤ 20 ∧
      calculate_score a true exceptional_quality =
        calculate_score b true exceptional_quality' := by
  have htrap : ∀ (c : ScoreInputs) (e : Bool), calculate_score c true e =
      max 0 (20 * (1 - c.trap_score)) := fun c e => rfl
  have htrap_le : calculate_score a true exceptional_quality ≤ 20 := by
    rw [htrap]
    exact max_le (by norm_num) (by nlinarith)
  refine ⟨?_, rfl, htrap_le, ?_⟩
  · unfold calculate_score
    split_ifs
    · refine ⟨le_max_left 0 _, ?_⟩
      have h20 : (0 : ℚ) ⊔ 20 * (1 - a.trap_score) ≤ 20 :=
        max_le (by norm_num) (by nlinarith)
      linarith
    · constructor
      · have h1 := signal_bucket_nonneg a.signal
        have h2 := exceptional_fcf_bucket_nonneg a.fcf_yield
        have : (0:ℚ) ≤ 35 + signal_bucket a.signal + exceptional_fcf_bucket a.fcf_yield := by
          linarith
        exact le_min this (by norm_num)
      · exact min_le_right _ _
    · constructor
      · have h1 := quality_bucket_nonneg
          (match a.roic_percent with
            | some r => if r ≠ 0 then r else a.roe_percent
            | none => a.roe_percent)
        have h2 := discount_bucket_nonneg a.discount
        have h3 := signal_bucket_nonneg a.signal
        have h4 := fcf_bucket_nonneg a.fcf_yield
        exact le_min (by linarith) (by norm_num)
      · exact min_le_right _ _
  · rw [htrap a exceptional_quality, htrap b exceptional_quality', hsame]

/-- C7 witness: a trapped analysis with trap score `0.7` scores exactly
`6`, whatever its other fields. -/
theorem C7_score_range_and_trap_path_witness :
    (0 ≤ calculate_score ⟨7/10, 25, none, 40, "STRONG_BUY", 5⟩ true false ∧
        calculate_score ⟨7/10, 25, none, 40, "STRONG_BUY", 5⟩ true false ≤ 100) ∧
      calculate_score ⟨7/10, 25, none, 40, "STRONG_BUY", 5⟩ true false =
        max 0 (20 * (1 - 7/10)) ∧
      calculate_score ⟨7/10, 25, none, 40, "STRONG_BUY", 5⟩ true false ≤ 20 ∧
      calculate_score ⟨7/10, 25, none, 40, "STRONG_BUY", 5⟩ true false =
        calculate_score ⟨7/10, 3, some 12, -5, "AVOID", 50⟩ true true := by
  exact C7_score_range_and_trap_path ⟨7/10, 25, none, 40, "STRONG_BUY", 5⟩
    ⟨7/10, 3, some 12, -5, "AVOID", 50⟩ true false true (by norm_num) rfl

/-- C8 counterexample: the discount bucket drops from 30 points at a 30 %
discount to 5 points at an 85 % discount, and the FCF bucket drops from
20 points at a 3 % yield to 12 points at a 9 % yield — increasing either
input within its defined ranges can strictly decrease the bucket's
contribution, contradicting the claimed monotonicity. -/
theorem C8_counterexample :
    ((30 : ℚ) ≤ 85 ∧ discount_bucket 30 = 30 ∧ discount_bucket 85 = 5) ∧
      ((3 : ℚ) ≤ 9 ∧ fcf_bucket 3 = 20 ∧ fcf_bucket 9 = 12) := by
  norm_num [discount_bucket, fcf_bucket]

/-- C8 amended: on the normal scoring path the quality-bucket
contribution is monotone in the primary return everywhere, while the
discount-bucket and FCF-yield-bucket contributions are monotone only up
to their peaks — for discounts at most 60 and FCF yields at most 8 —
beyond which the code deliberately penalizes extreme values. -/
lemma discount_bucket_of_le_60 (d : ℚ) (h : d ≤ 60) :
    discount_bucket d =
      if 25 ≤ d then 30 else if 15 < d then 20 else if 0 < d then 10 else 0 := by
  unfold discount_bucket
  by_cases h25 : 25 ≤ d
  · rw [if_pos ⟨h25, h⟩, if_pos h25]
  · by_cases h15 : 15 < d
    · rw [if_neg (fun hc => h25 hc.1),
        if_pos (Or.inl ⟨h15, lt_of_not_le h25⟩), if_neg h25, if_pos h15]
    · have hno2 : ¬((15 < d ∧ d < 25) ∨ (60 < d ∧ d ≤ 80)) := by
        rintro (⟨h', _⟩ | ⟨h', _⟩) <;> [exact h15 h'; linarith]
      by_cases h0 : 0 < d
      · rw [if_neg (fun hc => h25 hc.1), if_neg hno2,
          if_pos ⟨h0, by linarith⟩, if_neg h25, if_neg h15, if_pos h0]
      · rw [if_neg (fun hc => h25 hc.1), if_neg hno2,
          if_neg (fun hc => h0 hc.1), if_neg (by linarith),
          if_neg h25, if_neg h15, if_neg h0]

lemma fcf_bucket_of_le_8 (y : ℚ) (h : y ≤ 8) :
    fcf_bucket y = if 3 ≤ y then 20 else if 2 < y then 12 else 5 := by
  unfold fcf_bucket
  by_cases h3 : 3 ≤ y
  · rw [if_pos ⟨h3, h⟩, if_pos h3]
  · have hno1 : ¬(3 ≤ y ∧ y ≤ 8) := fun hc => h3 hc.1
    by_cases h2 : 2 < y
    · rw [if_neg hno1, if_pos (Or.inl ⟨h2, lt_of_not_le h3⟩), if_neg h3, if_pos h2]
    · have hno2 : ¬((2 < y ∧ y < 3) ∨ (8 < y ∧ y ≤ 12)) := by
        rintro (⟨h', _⟩ | ⟨h', _⟩) <;> [exact h2 h'; linarith]
      rw [if_neg hno1, if_neg hno2, if_pos (by linarith), if_neg h3, if_neg h2]

theorem C8_bucket_monotonicity_amended (r1 r2 d1 d2 y1 y2 : ℚ)
    (hr : r1 ≤ r2) (hd : d1 ≤ d2) (hd60 : d2 ≤ 60) (hy : y1 ≤ y2) (hy8 : y2 ≤ 8) :
    quality_bucket r1 ≤ quality_bucket r2 ∧
      discount_bucket d1 ≤ discount_bucket d2 ∧
      fcf_bucket y1 ≤ fcf_bucket y2 := by
  refine ⟨?_, ?_, ?_⟩
  · unfold quality_bucket
    split_ifs <;> linarith
  · rw [discount_bucket_of_le_60 d1 (by linarith), discount_bucket_of_le_60 d2 hd60]
    split_ifs <;> linarith
  · rw [fcf_bucket_of_le_8 y1 (by linarith), fcf_bucket_of_le_8 y2 hy8]
    split_ifs <;> linarith

/-- C8 amended witness: raising the primary return from 10 to 21, the
discount from 10 to 30 and the yield from 1 to 5 raises (or keeps) every
bucket contribution. -/
theorem C8_bucket_monotonicity_amended_witness :
    quality_bucket 10 ≤ quality_bucket 21 ∧
      discount_bucket 10 ≤ discount_bucket 30 ∧
      fcf_bucket 1 ≤ fcf_bucket 5 := by
  exact C8_bucket_monotonicity_amended 10 21 10 30 1 5 (by norm_num) (by norm_num)
    (by norm_num) (by norm_num) (by norm_num)

/-! ### Full per-ticker analysis (valuation_calculator.py, analyze_stock) -/

/-- The analysis dictionary assembled by
`ValuationCalculator.analyze_stock` (flattening the nested `metrics` and
`valuation` sub-dictionaries into named fields). -/
structure CalcAnalysis where
  ticker : String
  current_price : ℚ
  fcf : ℚ
  fcf_per_share : ℚ
  roe : ℚ
  roic : Option ℚ
  intrinsic_value : ℚ
  value_with_margin_of_safety : ℚ
  wacc : ℚ
  growth_rate : ℚ
  sector : String
  quality : QualityRating
  value_trap_flag : ValueTrapFlag
  assessment : Assessment
deriving DecidableEq

/-- The growth rate `ValuationCalculator.analyze_stock` settles on before
calling the DCF: the caller's override when given, else the sector rate. -/
def effective_growth_rate (ticker : String) (growth_rate? : Option ℚ) : ℚ :=
  match growth_rate? with
  | some g => g
  | none => (get_sector_growth_rate ticker).1

/-- `ValuationCalculator.analyze_stock(...)`: computes FCF, FCF/share and
ROE, ROIC when both optional inputs are truthy, the sector-aware growth
rate, the default WACC, the intrinsic value, the quality rating, the
value-trap flag and the final assessment, and records them all. -/
def va_analyze_stock (ticker : String)
    (current_price operating_cash_flow capex net_income shareholders_equity
      shares_outstanding : ℚ)
    (operating_income invested_capital : Option ℚ) (growth_rate? : Option ℚ) :
    CalcAnalysis :=
  let fcf := calculate_free_cash_flow operating_cash_flow capex
  let fcf_per_share := calculate_fcf_per_share fcf shares_outstanding
  let roe := calculate_roe net_income shareholders_equity
  let roic : Option ℚ :=
    match operating_income, invested_capital with
    | some oi, some ic =>
      if oi ≠ 0 ∧ ic ≠ 0 then some (calculate_roic (estimate_nopat oi (21/100)) ic)
      else none
    | _, _ => none
  let growth_rate := effective_growth_rate ticker growth_rate?
  let sector := (get_sector_growth_rate ticker).2
  let wacc := calculate_wacc (45/1000) (55/1000) 1 (1/2)
  let intrinsic_value :=
    (calculate_intrinsic_value fcf_per_share (some ticker) (some growth_rate)
      (some wacc) (25/1000) 10).1
  let quality := calculate_quality_rating roe roic (some fcf_per_share) (some current_price)
  let value_trap := detect_value_trap roe fcf_per_share current_price growth_rate
  let assessment := rate_valuation current_price intrinsic_value quality value_trap
  let value_with_mos := intrinsic_value * (1 - quality.margin_of_safety)
  { ticker := ticker, current_price := current_price, fcf := fcf,
    fcf_per_share := fcf_per_share, roe := roe, roic := roic,
    intrinsic_value := intrinsic_value,
    value_with_margin_of_safety := value_with_mos, wacc := wacc,
    growth_rate := growth_rate, sector := sector, quality := quality,
    value_trap_flag := value_trap, assessment := assessment }

lemma growth_clamp_of_gt (g : ℚ) (hg : 8/100 < g) : min (max g 0) (8/100) = 8/100 := by
  rw [max_eq_left (by linarith), min_eq_right (by linarith)]

/-- An over-cap growth rate is interchangeable with the cap itself inside
`calculate_intrinsic_value`: the function clamps its growth-rate argument
to at most `0.08` before any use. -/
lemma intrinsic_value_clamps_growth (fcf_per_share : ℚ) (ticker : Option String)
    (g : ℚ) (hg : 8/100 < g) (wacc? : Option ℚ) (tgr : ℚ) (n : ℕ) :
    calculate_intrinsic_value fcf_per_share ticker (some g) wacc? tgr n =
      calculate_intrinsic_value fcf_per_share ticker (some (8/100)) wacc? tgr n := by
  simp only [calculate_intrinsic_value]
  have h8 : min (max (8/100 : ℚ) 0) (8/100) = 8/100 := by norm_num
  rw [growth_clamp_of_gt g hg, h8]

/-- C10: whenever the effective growth rate exceeds the 8 % cap (sector
rates such as NETWORK's or SOCIAL_MEDIA's 12 %, or a caller override),
`ValuationCalculator.analyze_stock` records the raw rate in the
analysis's `growth_rate` field while computing the intrinsic value from
the rate clamped to 8 % — the recorded rate and the rate used in the DCF
differ. -/
theorem C10_recorded_growth_differs_from_dcf (ticker : String)
    (current_price operating_cash_flow capex net_income shareholders_equity
      shares_outstanding : ℚ)
    (operating_income invested_capital : Option ℚ) (growth_rate? : Option ℚ)
    (hg : 8/100 < effective_growth_rate ticker growth_rate?) :
    (va_analyze_stock ticker current_price operating_cash_flow capex net_income
          shareholders_equity shares_outstanding operating_income invested_capital
          growth_rate?).growth_rate = effective_growth_rate ticker growth_rate? ∧
      (va_analyze_stock ticker current_price operating_cash_flow capex net_income
          shareholders_equity shares_outstanding operating_income invested_capital
          growth_rate?).intrinsic_value =
        (calculate_intrinsic_value
          (calculate_fcf_per_share
            (calculate_free_cash_flow operating_cash_flow capex) shares_outstanding)
          (some ticker) (some (8/100))
          (some (calculate_wacc (45/1000) (55/1000) 1 (1/2))) (25/1000) 10).1 ∧
      (va_analyze_stock ticker current_price operating_cash_flow capex net_income
          shareholders_equity shares_outstanding operating_income invested_capital
          growth_rate?).growth_rate ≠ 8/100 := by
  refine ⟨rfl, ?_, ?_⟩
  · show (calculate_intrinsic_value _ _ (some (effective_growth_rate ticker growth_rate?))
        _ _ _).1 = _
    rw [intrinsic_value_clamps_growth _ _ _ hg]
  · show effective_growth_rate ticker growth_rate? ≠ 8/100
    exact fun h => absurd (h ▸ hg) (lt_irrefl _)

/-- C10 witness: ticker V (sector NETWORK, base growth 12 %) with no
caller override records 0.12 while its DCF runs at the 0.08 cap. -/
theorem C10_recorded_growth_differs_from_dcf_witness :
    (va_analyze_stock "V" 250 20000 1000 17000 38000 2000 none none
          none).growth_rate = 12/100 ∧
      (va_analyze_stock "V" 250 20000 1000 17000 38000 2000 none none
          none).intrinsic_value =
        (calculate_intrinsic_value
          (calculate_fcf_per_share
            (calculate_free_cash_flow 20000 1000) 2000)
          (some "V") (some (8/100))
          (some (calculate_wacc (45/1000) (55/1000) 1 (1/2))) (25/1000) 10).1 ∧
      (va_analyze_stock "V" 250 20000 1000 17000 38000 2000 none none
          none).growth_rate ≠ 8/100 := by
  have hv : effective_growth_rate "V" none = 12/100 := rfl
  have h := C10_recorded_growth_differs_from_dcf "V" 250 20000 1000 17000 38000
    2000 none none none (by rw [hv]; norm_num)
  exact ⟨hv ▸ h.1, h.2.1, h.2.2⟩

/-! ### Fetched inputs and their validation (data_fetcher.py, extract_metrics) -/

/-- The per-ticker metrics dictionary a fetch produces (`FinancialInputs`
of the specification).  `operating_income` and `invested_capital` are
optional extras read with `.get`. -/
structure FinancialInputs where
  current_price : ℚ
  shares_outstanding : ℚ
  operating_cash_flow : ℚ
  capex : ℚ
  net_income : ℚ
  total_equity : ℚ
  operating_income : Option ℚ
  invested_capital : Option ℚ
deriving DecidableEq

/-- The validation gate at the end of `DataFetcher.extract_metrics`:
`None` unless price, shares, operating cash flow, net income and equity
are all strictly positive (capex is not checked there). -/
def extract_metrics_check (m : FinancialInputs) : Option FinancialInputs :=
  if m.current_price ≤ 0 ∨ m.shares_outstanding ≤ 0 ∨ m.operating_cash_flow ≤ 0 ∨
      m.net_income ≤ 0 ∨ m.total_equity ≤ 0 then
    none
  else some m

/-! ### Recommender (recommender.py, StockRecommender) -/

/-- The `quality_metrics` dictionary added by
`StockRecommender.analyze_stock`. -/
structure QualityMetrics where
  fcf_yield : ℚ
  pe_ratio : ℚ
  roe_percent : ℚ
  roic_percent : Option ℚ
deriving DecidableEq

/-- A successful recommender analysis: the calculator's analysis, the
added quality metrics and the recommendation score. -/
structure RecAnalysis where
  analysis : CalcAnalysis
  quality_metrics : QualityMetrics
  recommendation_score : ℚ
deriving DecidableEq

/-- `StockRecommender.analyze_stock(ticker)` after the metrics have been
fetched: `None` when the fetch produced nothing or any of operating cash
flow, net income or equity is non-positive; otherwise the calculator
analysis augmented with quality metrics and the recommendation score. -/
def rec_analyze_stock (metrics? : Option FinancialInputs) (ticker : String) :
    Option RecAnalysis :=
  match metrics? with
  | none => none
  | some m =>
    if m.operating_cash_flow ≤ 0 ∨ m.net_income ≤ 0 ∨ m.total_equity ≤ 0 then none
    else
      let a := va_analyze_stock ticker m.current_price m.operating_cash_flow m.capex
        m.net_income m.total_equity m.shares_outstanding m.operating_income
        m.invested_capital none
      let qm : QualityMetrics :=
        { fcf_yield :=
            if 0 < m.current_price then a.fcf_per_share / m.current_price * 100 else 0,
          pe_ratio :=
            if 0 < m.net_income then
              m.current_price / (m.net_income / m.shares_outstanding)
            else 0,
          roe_percent := a.roe * 100,
          roic_percent :=
            match a.roic with
            | some r => if r ≠ 0 then some (r * 100) else none
            | none => none }
      let score := calculate_score
        { trap_score := a.value_trap_flag.trap_score,
          roe_percent := qm.roe_percent,
          roic_percent := qm.roic_percent,
          discount := a.assessment.discount,
          signal := a.assessment.signal,
          fcf_yield := qm.fcf_yield }
        a.value_trap_flag.is_trap (decide (a.quality.quality = "EXCEPTIONAL"))
      some { analysis := a, quality_metrics := qm, recommendation_score := score }

/-- One ticker of the recommender pipeline: the fetched raw inputs pass
through `extract_metrics`'s validation gate, then through
`StockRecommender.analyze_stock`. -/
def recommender_pipeline (raw? : Option FinancialInputs) (ticker : String) :
    Option RecAnalysis :=
  rec_analyze_stock (raw?.bind extract_metrics_check) ticker

/-- C3 counterexample: fetched inputs with `capex = 0` (all other
required fields strictly positive) are not dropped — the pipeline returns
an analysis, so a non-positive `capex` does not cause a `None` result as
the claim asserts. -/
theorem C3_counterexample :
    (⟨50, 1000, 10000, 0, 5000, 50000, none, none⟩ : FinancialInputs).capex ≤ 0 ∧
      (recommender_pipeline (some ⟨50, 1000, 10000, 0, 5000, 50000, none, none⟩)
          "TEST").isSome = true := by
  refine ⟨le_refl 0, ?_⟩
  norm_num [recommender_pipeline, extract_metrics_check, rec_analyze_stock, Option.bind]

/-- C3 amended: the pipeline drops a ticker (returns `None`) whenever any
of `current_price`, `shares_outstanding`, `operating_cash_flow`,
`net_income` or `total_equity` is non-positive — `capex` is not part of
the positivity validation. -/
theorem C3_drop_nonpositive_amended (m : FinancialInputs) (ticker : String)
    (h : m.current_price ≤ 0 ∨ m.shares_outstanding ≤ 0 ∨ m.operating_cash_flow ≤ 0 ∨
      m.net_income ≤ 0 ∨ m.total_equity ≤ 0) :
    recommender_pipeline (some m) ticker = none := by
  unfold recommender_pipeline
  rw [Option.some_bind, extract_metrics_check, if_pos h]
  rfl

/-- C3 witness: a zero price is dropped. -/
theorem C3_drop_nonpositive_amended_witness :
    recommender_pipeline (some ⟨0, 1000, 10000, 2000, 5000, 50000, none, none⟩)
        "TEST" = none :=
  C3_drop_nonpositive_amended ⟨0, 1000, 10000, 2000, 5000, 50000, none, none⟩
    "TEST" (Or.inl (le_refl 0))

/-! ### Universe ranking (recommender.py, StockRecommender.analyze_universe) -/

/-- The composite sort key of the final table: `(recommendation_score,
discount_percent)`. -/
def analysis_key (a : RecAnalysis) : ℚ × ℚ :=
  (a.recommendation_score, a.analysis.assessment.discount)

/-- Descending lexicographic comparison on the composite key: `a` may be
placed no later than `b`. -/
def keyGe (a b : RecAnalysis) : Prop :=
  b.recommendation_score < a.recommendation_score ∨
    (a.recommendation_score = b.recommendation_score ∧
      b.analysis.assessment.discount ≤ a.analysis.assessment.discount)

instance : DecidableRel keyGe := fun a b => by unfold keyGe; infer_instance

instance : IsTotal RecAnalysis keyGe where
  total a b := by
    unfold keyGe
    rcases lt_trichotomy a.recommendation_score b.recommendation_score with h | h | h
    · exact Or.inr (Or.inl h)
    · rcases le_total b.analysis.assessment.discount a.analysis.assessment.discount with
        hd | hd
      · exact Or.inl (Or.inr ⟨h, hd⟩)
      · exact Or.inr (Or.inr ⟨h.symm, hd⟩)
    · exact Or.inl (Or.inl h)

instance : IsTrans RecAnalysis keyGe where
  trans a b c hab hbc := by
    unfold keyGe at *
    rcases hab with h1 | ⟨h1, h1d⟩ <;> rcases hbc with h2 | ⟨h2, h2d⟩
    · exact Or.inl (by linarith)
    · exact Or.inl (by linarith)
    · exact Or.inl (by linarith)
    · exact Or.inr ⟨h1.trans h2, h2d.trans h1d⟩

lemma keyGe_of_key_eq {x y : RecAnalysis} (h : analysis_key y = analysis_key x) :
    keyGe x y := by
  unfold analysis_key at h
  rw [Prod.mk.injEq] at h
  exact Or.inr ⟨h.1.symm, le_of_eq h.2⟩

/-- Successful analyses of a ticker universe, in input order: failed
tickers are skipped, never fatal. -/
def successList (fetch : String → Option FinancialInputs) (tickers : List String) :
    List RecAnalysis :=
  tickers.filterMap (fun t => recommender_pipeline (fetch t) t)

/-- `StockRecommender.analyze_universe(tickers, top_n)`: the successes,
sorted descending on `(recommendation_score, discount_percent)` with a
stable sort (`DataFrame.sort_values` on several columns is a stable
lexicographic sort), cut to the first `top_n` rows. -/
def analyze_universe (fetch : String → Option FinancialInputs)
    (tickers : List String) (top_n : ℕ) : List RecAnalysis :=
  (List.insertionSort keyGe (successList fetch tickers)).take top_n

lemma filter_orderedInsert_key_eq (k : ℚ × ℚ) (x : RecAnalysis)
    (hx : analysis_key x = k) (l : List RecAnalysis) :
    (List.orderedInsert keyGe x l).filter (fun a => decide (analysis_key a = k)) =
      x :: l.filter (fun a => decide (analysis_key a = k)) := by
  induction l with
  | nil => simp [List.orderedInsert, hx]
  | cons y l ih =>
    rw [List.orderedInsert]
    by_cases hxy : keyGe x y
    · rw [if_pos hxy]
      simp [List.filter_cons, hx]
    · rw [if_neg hxy]
      have hyk : ¬ analysis_key y = k := fun hy => hxy (keyGe_of_key_eq (hy.trans hx.symm))
      simp [List.filter_cons, hyk, ih]

lemma filter_orderedInsert_key_ne (k : ℚ × ℚ) (x : RecAnalysis)
    (hx : ¬ analysis_key x = k) (l : List RecAnalysis) :
    (List.orderedInsert keyGe x l).filter (fun a => decide (analysis_key a = k)) =
      l.filter (fun a => decide (analysis_key a = k)) := by
  induction l with
  | nil => simp [List.orderedInsert, hx]
  | cons y l ih =>
    rw [List.orderedInsert]
    by_cases hxy : keyGe x y
    · rw [if_pos hxy]
      simp [List.filter_cons, hx]
    · rw [if_neg hxy]
      simp [List.filter_cons, ih]

/-- Stability of the ranking sort: for every fixed composite key, the
sorted list restricted to that key is the input list restricted to that
key — ties keep their input order. -/
lemma filter_insertionSort_key (k : ℚ × ℚ) (l : List RecAnalysis) :
    (List.insertionSort keyGe l).filter (fun a => decide (analysis_key a = k)) =
      l.filter (fun a => decide (analysis_key a = k)) := by
  induction l with
  | nil => rfl
  | cons x l ih =>
    rw [List.insertionSort]
    by_cases hx : analysis_key x = k
    · rw [filter_orderedInsert_key_eq k x hx, ih, List.filter_cons, if_pos (by simp [hx])]
    · rw [filter_orderedInsert_key_ne k x hx, ih, List.filter_cons,
        if_neg (by simp [hx])]

/-- C9: `analyze_universe` returns at most `top_n` rows; it is the
`top_n`-prefix of the stable descending sort of the successful analyses
(failed tickers having been skipped by `successList`, never aborting the
batch); that sort is a permutation of the successes, is sorted on the
composite `(recommendation_score, discount_percent)` key, and is stable:
successes tied on both keys keep their input order. -/
theorem C9_analyze_universe_ranking (fetch : String → Option FinancialInputs)
    (tickers : List String) (top_n : ℕ) :
    (analyze_universe fetch tickers top_n).length ≤ top_n ∧
      analyze_universe fetch tickers top_n =
        (List.insertionSort keyGe (successList fetch tickers)).take top_n ∧
      (List.insertionSort keyGe (successList fetch tickers)).Perm
        (successList fetch tickers) ∧
      List.Sorted keyGe (List.insertionSort keyGe (successList fetch tickers)) ∧
      ∀ k : ℚ × ℚ,
        (List.insertionSort keyGe (successList fetch tickers)).filter
            (fun a => decide (analysis_key a = k)) =
          (successList fetch tickers).filter (fun a => decide (analysis_key a = k)) := by
  refine ⟨?_, rfl, List.perm_insertionSort keyGe _, List.sorted_insertionSort keyGe _,
    fun k => filter_insertionSort_key k _⟩
  calc (analyze_universe fetch tickers top_n).length
      ≤ min top_n (List.insertionSort keyGe (successList fetch tickers)).length := by
        rw [analyze_universe, List.length_take]
    _ ≤ top_n := min_le_left _ _

end StockVal
